import Mathlib

/-!
Verification of the ownership-report job pipeline (backend/app of the
ownership MVP repository).  The Python source is shallowly embedded:
pure helpers become Lean functions, the HTTP environment (registry
responses, announcement responses, clock readings, render outcomes)
becomes explicit data threaded through the pipeline, and the job store
becomes an explicit `Store` value.  Exceptions raised by the Python code
are modelled with `Except String`; exceptions that the Python code
catches locally are resolved inside the corresponding definition.
Database commits are treated as reliable (the persistence layer is an
external collaborator); each committed store state is recorded in a
trace so that observable status sequences can be stated.
-/

namespace Ownership

/-- Python truthiness of an optional string (`None` and `""` are falsy). -/
def truthy : Option String → Bool
  | none => false
  | some s => s ≠ ""

/-- Python `a or b` for a string-valued `a` with default `b`. -/
def pyOr (s d : String) : String := if s = "" then d else s

/-- Python `a or b` where `a` is an optional string and `b` a string. -/
def optOr (o : Option String) (d : String) : String :=
  match o with
  | some s => if s = "" then d else s
  | none => d

/-- First truthy value among `opts`, else the default `d`
(the Python `x.get(k1) or x.get(k2) or d` chain). -/
def firstTruthyD : List (Option String) → String → String
  | [], d => d
  | o :: os, d =>
    match o with
    | some s => if s = "" then firstTruthyD os d else s
    | none => firstTruthyD os d

/-- `_confidence_score` from `tasks.py`: base 0, +40 primary, +20 recent,
+20 percentage known, −20 inferred, clamped to [0, 100]. -/
def confidenceScore (has_pct is_recent is_primary inferred : Bool) : Int :=
  let score : Int := 0
  let score := if is_primary then score + 40 else score
  let score := if is_recent then score + 20 else score
  let score := if has_pct then score + 20 else score
  let score := if inferred then score - 20 else score
  max 0 (min 100 score)

/-- The seven optional address components read by `_format_address`,
in the fixed order they are concatenated. -/
structure Address where
  complement : Option String := none
  numeroVoie : Option String := none
  indiceRepetition : Option String := none
  typeVoie : Option String := none
  libelleVoie : Option String := none
  codePostal : Option String := none
  libelleCommune : Option String := none
deriving Repr, DecidableEq

/-- The component list of `_format_address`, in source order. -/
def addressParts (a : Address) : List (Option String) :=
  [a.complement, a.numeroVoie, a.indiceRepetition, a.typeVoie,
   a.libelleVoie, a.codePostal, a.libelleCommune]

/-- `_format_address`: join the truthy components with single spaces. -/
def formatAddress (a : Address) : String :=
  String.intercalate " "
    ((addressParts a).filterMap fun p =>
      match p with
      | some s => if s = "" then none else some s
      | none => none)

/-- A minimal JSON value type, used for the announcements (BODACC)
response bodies, which the Python code navigates dynamically. -/
inductive Json where
  | null
  | bool (b : Bool)
  | num (n : Int)
  | str (s : String)
  | arr (items : List Json)
  | obj (fields : List (String × Json))

/-- Python truthiness of a JSON value. -/
def Json.isTruthy : Json → Bool
  | .null => false
  | .bool b => b
  | .num n => n ≠ 0
  | .str s => s ≠ ""
  | .arr xs => !xs.isEmpty
  | .obj fs => !fs.isEmpty

/-- Python `d.get(k, default)`.  `none` models the `AttributeError`
raised when the receiver is not a dict. -/
def Json.dictGet : Json → String → Json → Option Json
  | .obj fs, k, d => some ((((fs.find? fun p => p.1 == k)).map Prod.snd).getD d)
  | _, _, _ => none

/-- `_get_first(fields, keys)`: first truthy value among the keys, else
`None`.  The outer `none` models the exception raised when `fields` is
not a dict. -/
def getFirst : Json → List String → Option (Option Json)
  | _, [] => some none
  | fields, k :: ks =>
    match fields.dictGet k Json.null with
    | none => none
    | some v => if v.isTruthy then some (some v) else getFirst fields ks

/-- One BODACC event record as assembled by `_fetch_bodacc_events`
(each field is the first truthy value among its candidate keys, or
`None`). -/
structure BodaccEvent where
  date : Option Json
  etype : Option Json
  categorie : Option Json
  numero : Option Json
  tribunal : Option Json
  ville : Option Json

/-- Extraction of one event from one record of the BODACC response.
`none` models an exception raised while navigating the record. -/
def parseEvent (rec : Json) : Option BodaccEvent := do
  let fields ← rec.dictGet "fields" (Json.obj [])
  let date ← getFirst fields ["dateparution", "date_parution"]
  let etype ← getFirst fields ["typeannonce", "type_annonce"]
  let categorie ← getFirst fields ["categorieannonce", "categorie_annonce"]
  let numero ← getFirst fields ["numeroannonce", "numero_annonce"]
  let tribunal ← getFirst fields ["tribunal"]
  let ville ← getFirst fields ["ville", "commune"]
  return ⟨date, etype, categorie, numero, tribunal, ville⟩

/-- The `for rec in records` loop body of `_fetch_bodacc_events`; an
exception anywhere aborts the whole loop (`none`). -/
def parseEventList : List Json → Option (List BodaccEvent)
  | [] => some []
  | r :: rs =>
    match parseEvent r with
    | none => none
    | some e =>
      match parseEventList rs with
      | none => none
      | some es => some (e :: es)

/-- Parsing of the whole BODACC payload: `data.get("records", [])`
followed by the event loop; `none` models any exception (iterating a
non-list value raises inside the loop). -/
def parseEvents (data : Json) : Option (List BodaccEvent) :=
  match data.dictGet "records" (Json.arr []) with
  | none => none
  | some (.arr rs) => parseEventList rs
  | some _ => none

/-- Outcome of one outbound HTTP request as seen by the caller:
the call raises (transport error / timeout), or returns a status code
with a body (`none` body models a `resp.json()` failure). -/
inductive HttpResp where
  | raise (msg : String)
  | status (code : Nat) (body : Option Json)

/-- The query parameters `_fetch_bodacc_events` sends (the record cap is
delegated to the dataset API through `rows`). -/
def bodaccParams (siren : String) (limit : Nat) : List (String × String) :=
  [("dataset", "annonces-commerciales"), ("rows", toString limit),
   ("sort", "-dateparution"), ("q", siren)]

/-- `_fetch_bodacc_events`: the entire body is wrapped in
`try/except`, so every transport error, non-success status or
malformed payload yields `[]`. -/
def fetchBodaccEvents (resp : HttpResp) : List BodaccEvent :=
  match resp with
  | .raise _ => []
  | .status code body =>
    if code ≠ 200 then []
    else
      match body with
      | none => []
      | some data => (parseEvents data).getD []

/-- The shared token cache `_TOKEN_CACHE` (token value and expiry
instant, seconds since the epoch). -/
structure TokenCache where
  accessToken : Option String
  expiresAt : Int
deriving Repr, DecidableEq

/-- Outcome of the `requests.post` credential exchange in
`_sirene_access_token`: the call raises, returns a non-success status,
or returns a payload carrying optional `access_token` / `expires_in`. -/
inductive ExchangeOutcome where
  | raise (msg : String)
  | httpError (code : Nat)
  | ok (accessToken : Option String) (expiresIn : Option Int)
deriving Repr, DecidableEq

/-- Configuration and environment read by `_sirene_access_token`:
the relevant environment variables, the current clock reading, and the
outcome the token endpoint would produce if called. -/
structure TokenEnv where
  apiKey : Option String
  clientId : Option String
  clientSecret : Option String
  now : Int
  exchange : ExchangeOutcome
deriving Repr, DecidableEq

/-- Result of one `_sirene_access_token` call: the returned value (or
propagated exception), the cache afterwards, and whether a credential
exchange was attempted on the network. -/
structure TokenResult where
  token : Except String (Option String)
  cache : TokenCache
  exchanged : Bool

/-- `_sirene_access_token` from `tasks.py`. -/
def sireneAccessToken (env : TokenEnv) (cache : TokenCache) : TokenResult :=
  if truthy env.apiKey then
    { token := .ok env.apiKey, cache := cache, exchanged := false }
  else if !(truthy env.clientId && truthy env.clientSecret) then
    { token := .ok none, cache := cache, exchanged := false }
  else if truthy cache.accessToken && decide (env.now < cache.expiresAt - 30) then
    { token := .ok cache.accessToken, cache := cache, exchanged := false }
  else
    match env.exchange with
    | .raise m => { token := .error m, cache := cache, exchanged := true }
    | .httpError _ => { token := .ok none, cache := cache, exchanged := true }
    | .ok tok expiresIn =>
      if truthy tok then
        { token := .ok tok,
          cache := { accessToken := tok, expiresAt := env.now + expiresIn.getD 3600 },
          exchanged := true }
      else
        { token := .ok none, cache := cache, exchanged := true }

/-- Behaviour of one `_sirene_get` call, as determined by the
environment: no usable credential (the function returns `None` without
calling the network), an exception raised during the call (transport
error, timeout, or a failure inside the token exchange it performs),
a non-success HTTP status, or a success body. -/
inductive CallOutcome (α : Type) where
  | noAuth
  | raise (msg : String)
  | httpError (code : Nat)
  | ok (body : α)

/-- `_sirene_get`: empty headers short-circuit to `None`; a raised
exception propagates; a non-200 status yields `None`; otherwise the
parsed body is returned. -/
def sireneGet {α : Type} : CallOutcome α → Except String (Option α)
  | .noAuth => .ok none
  | .raise m => .error m
  | .httpError _ => .ok none
  | .ok b => .ok (some b)

/-- One entry of `periodesUniteLegale` (the fields read by
`_fetch_sirene_identity`; absent keys are `none`). -/
structure PeriodeUL where
  denomination : Option String := none
  nom : Option String := none
  etat : Option String := none

/-- The fields of the `/siren/{siren}` body read by
`_fetch_sirene_identity`, with the `.get` defaults folded in
(missing keys give an empty list / `none`). -/
structure SirenBody where
  periodes : List PeriodeUL := []
  nicSiege : Option String := none

/-- Responses of the three identity-registry lookups a single
`_fetch_sirene_identity` run can perform.  For the `/siren` lookup the
inner `Option` distinguishes a falsy (empty-dict) body, which the code
tests with `if not data`.  For the establishment lookups the body is
the address record, with `(x or {}).get(..., {})` defaults folded in. -/
structure SireneEnv where
  sirenResp : CallOutcome (Option SirenBody)
  siretResp : CallOutcome Address
  searchResp : CallOutcome (List Address)

/-- The identity record `_fetch_sirene_identity` builds in its
non-degenerate branch. -/
structure IdentityRec where
  name : String
  status : Option String
  siret : Option String
  address : String

/-- `_fetch_sirene_identity`: chained lookup (entity record →
head-office establishment → search fallback).  The result `none`
models the `{}` returned when the entity lookup yields no data;
`.error` models a propagated exception. -/
def fetchSireneIdentity (env : SireneEnv) (siren : String) :
    Except String (Option IdentityRec) :=
  match sireneGet env.sirenResp with
  | .error m => .error m
  | .ok none => .ok none
  | .ok (some none) => .ok none
  | .ok (some (some body)) =>
    let period := body.periodes.headD {}
    let name := firstTruthyD [period.denomination, period.nom] "Entreprise"
    let status := period.etat
    let siret : Option String :=
      match body.nicSiege with
      | some nic => if nic = "" then none else some (siren ++ nic)
      | none => none
    let addr1E : Except String String :=
      match siret with
      | some _ =>
        match sireneGet env.siretResp with
        | .error m => .error m
        | .ok siretData => .ok (formatAddress (siretData.getD {}))
      | none => .ok ""
    match addr1E with
    | .error m => .error m
    | .ok addr1 =>
      if addr1 = "" then
        match sireneGet env.searchResp with
        | .error m => .error m
        | .ok search =>
          let address :=
            match search.getD [] with
            | a :: _ => formatAddress a
            | [] => ""
          .ok (some { name := name, status := status, siret := siret, address := address })
      else
        .ok (some { name := name, status := status, siret := siret, address := addr1 })

/-- Job status values. -/
inductive Status where
  | queued
  | running
  | done
  | error
deriving Repr, DecidableEq

/-- A node of the rendered ownership graph. -/
structure GraphNode where
  id : String
  label : String
  group : String
  title : Option String := none

/-- A directed edge of the rendered ownership graph (`src`/`dst` embed
the `from`/`to` keys of the Python dict). -/
structure GraphEdge where
  src : String
  dst : String
  label : String
  confidence : Int

/-- The summary dict assembled by `build_ownership`, as a typed record
(field names embed the dict keys). -/
structure Summary where
  companyName : String
  address : String
  status : String
  directShareholders : String
  missingData : String
  confidenceScoreField : String
  bodaccCount : String
  sources : String

/-- The `result_json` payload attached to a job on success. -/
structure ResultPayload where
  siren : String
  depth : Int
  nodes : List GraphNode
  edges : List GraphEdge
  summary : Summary
  bodaccEvents : List BodaccEvent

/-- A row of the `jobs` table (the fields the pipeline reads/writes). -/
structure Job where
  id : String
  siren : String
  depth : Int
  status : Status
  createdAt : Nat
  updatedAt : Nat
  error : Option String := none
  result : Option ResultPayload := none

/-- A row of the `artifacts` table. -/
structure Artifact where
  jobId : String
  kind : String
  path : String
  createdAt : Nat

/-- The job store (jobs and artifacts tables). -/
structure Store where
  jobs : List Job := []
  artifacts : List Artifact := []

/-- `session.query(Job).filter(Job.id == job_id).first()`. -/
def findJob (s : Store) (id : String) : Option Job :=
  s.jobs.find? fun j => j.id == id

/-- In-place update of the job row with the given id. -/
def updateJob (s : Store) (id : String) (f : Job → Job) : Store :=
  { s with jobs := s.jobs.map fun j => if j.id == id then f j else j }

/-- The artifact rows referencing a given job. -/
def artifactsFor (s : Store) (id : String) : List Artifact :=
  s.artifacts.filter fun a => a.jobId == id

/-- Environment of one `build_ownership` run: registry and
announcements responses, the outcome of the render/persist phase
(`some msg` models an exception raised while rendering the artifacts
or persisting them), the artifact directory, and the two clock
readings taken at the `running` and terminal transitions. -/
structure RunEnv where
  sirene : SireneEnv
  bodacc : HttpResp
  renderFailure : Option String := none
  artifactDir : String := "./data"
  tRun : Nat
  tEnd : Nat

/-- The body of `build_ownership` between the `running` commit and the
terminal commit: fetches, graph/summary assembly, artifact rendering.
Returns the result payload plus the two artifact rows to insert, or
the message of the exception that aborted the run. -/
def runPipeline (env : RunEnv) (job : Job) :
    Except String (ResultPayload × List Artifact) :=
  match fetchSireneIdentity env.sirene job.siren with
  | .error m => .error m
  | .ok identity =>
  let events := fetchBodaccEvents env.bodacc
  let companyName :=
    match identity with
    | none => "Company " ++ job.siren
    | some i => pyOr i.name ("Company " ++ job.siren)
  let companyStatus :=
    match identity with
    | none => "Unknown"
    | some i => optOr i.status "Unknown"
  let companyAddress :=
    match identity with
    | none => "Unknown"
    | some i => pyOr i.address "Unknown"
  let nodes : List GraphNode :=
    [{ id := job.siren, label := companyName, group := "target",
       title := some ("Status: " ++ companyStatus ++ "<br/>Address: " ++ companyAddress) },
     { id := "UNKNOWN", label := "Actionnaire non public", group := "unknown" }]
  let edges : List GraphEdge :=
    [{ src := "UNKNOWN", dst := job.siren, label := "N/A", confidence := 20 }]
  let confidence := confidenceScore false false false true
  let summary : Summary :=
    { companyName := companyName, address := companyAddress, status := companyStatus,
      directShareholders := "0", missingData := "Yes",
      confidenceScoreField := toString confidence,
      bodaccCount := toString events.length,
      sources := "Sirene (identity + siège address), BODACC (events); ownership not public" }
  match env.renderFailure with
  | some m => .error m
  | none =>
    .ok ({ siren := job.siren, depth := job.depth, nodes := nodes, edges := edges,
           summary := summary, bodaccEvents := events },
         [{ jobId := job.id, kind := "graph",
            path := env.artifactDir ++ "/graph_" ++ job.id ++ ".html", createdAt := env.tEnd },
          { jobId := job.id, kind := "pdf",
            path := env.artifactDir ++ "/report_" ++ job.id ++ ".pdf", createdAt := env.tEnd }])

/-- The field updates of the `queued → running` commit. -/
def runningUpdate (env : RunEnv) (j : Job) : Job :=
  { j with status := .running, updatedAt := env.tRun }

/-- The field updates of the `running → done` commit. -/
def doneUpdate (env : RunEnv) (p : ResultPayload) (j : Job) : Job :=
  { j with status := .done, result := some p, updatedAt := env.tEnd }

/-- The field updates of the `running → error` commit. -/
def errorUpdate (env : RunEnv) (msg : String) (j : Job) : Job :=
  { j with status := .error, error := some msg, updatedAt := env.tEnd }

/-- `build_ownership`, as the list of store states it commits, in
order: the `running` commit, then the terminal commit (`done` with
result and both artifact rows, or `error` with the exception message
after rollback of the uncommitted artifact inserts).  An unknown job
id commits nothing. -/
def buildOwnershipTrace (env : RunEnv) (jobId : String) (s : Store) : List Store :=
  match findJob s jobId with
  | none => []
  | some job =>
    let s1 := updateJob s jobId (runningUpdate env)
    match runPipeline env job with
    | .ok pa =>
      [s1, updateJob { s1 with artifacts := s1.artifacts ++ pa.2 } jobId (doneUpdate env pa.1)]
    | .error msg =>
      [s1, updateJob s1 jobId (errorUpdate env msg)]

/-- Store state after a `build_ownership` run. -/
def buildOwnership (env : RunEnv) (jobId : String) (s : Store) : Store :=
  (buildOwnershipTrace env jobId s).getLast?.getD s

/-- The request validation performed by the `OwnershipRequest` model
(`siren` exactly 9 characters, `depth` between 1 and 6). -/
def validSubmission (siren : String) (depth : Int) : Bool :=
  siren.length == 9 && decide (1 ≤ depth) && decide (depth ≤ 6)

/-- Response of the submit endpoint: a validation rejection (no job
created) or an accepted job id with its reported status. -/
inductive SubmitResult where
  | rejected
  | accepted (jobId : String) (status : Status)
deriving Repr, DecidableEq

/-- Outcome of one submission: the response, the final store, and the
trace of committed store states (creation commit, then the pipeline's
commits). -/
structure SubmitOut where
  result : SubmitResult
  store : Store
  trace : List Store

/-- The job row inserted by `create_ownership` (status `queued`, both
timestamps set at creation). -/
def newJob (siren : String) (depth : Int) (newId : String) (t0 : Nat) : Job :=
  { id := newId, siren := siren, depth := depth, status := .queued,
    createdAt := t0, updatedAt := t0 }

/-- `create_ownership` (synchronous path; the queued path runs the same
pipeline later): validation, job creation with status `queued`, one
`build_ownership` run, then the refreshed status is reported. -/
def submitOwnership (env : RunEnv) (siren : String) (depth : Int)
    (newId : String) (t0 : Nat) (s : Store) : SubmitOut :=
  if validSubmission siren depth then
    let s0 : Store := { s with jobs := s.jobs ++ [newJob siren depth newId t0] }
    let tr := buildOwnershipTrace env newId s0
    let final := tr.getLast?.getD s0
    { result := .accepted newId (((findJob final newId).map Job.status).getD .queued),
      store := final, trace := s0 :: tr }
  else
    { result := .rejected, store := s, trace := [] }

/-- The status of a given job at each committed store state in which it
exists. -/
def statusTrace (tr : List Store) (id : String) : List Status :=
  tr.filterMap fun st => (findJob st id).map Job.status

/-- The `updated_at` of a given job at each committed store state. -/
def updatedAtTrace (tr : List Store) (id : String) : List Nat :=
  tr.filterMap fun st => (findJob st id).map Job.updatedAt

/-- Whether the artifact files for a job id exist on disk (checked by
the `get_ownership` fallback). -/
structure DiskEnv where
  pdfExists : Bool
  graphExists : Bool
deriving Repr, DecidableEq

/-- One artifact entry of a `get_ownership` response. -/
structure ArtView where
  kind : String
  path : String
  url : Option String := none

/-- The job view returned by `get_ownership` (optional fields are
`null` in the synthesized disk-fallback view). -/
structure JobView where
  jobId : String
  siren : Option String
  statusField : Option Status
  createdAt : Option Nat
  updatedAt : Option Nat
  errorField : Option String
  resultField : Option ResultPayload
  artifacts : List ArtView

/-- Response of the get-status endpoint. -/
inductive GetResp where
  | notFound
  | found (v : JobView)

/-- `get_ownership` from `main.py`: return the stored job view when the
row exists; otherwise fall back to artifact files on disk (synthesizing
a `done` view over them) and only report 404 when those are absent
too. -/
def getOwnership (disk : DiskEnv) (baseUrl artifactDir : String)
    (jobId : String) (s : Store) : GetResp :=
  match findJob s jobId with
  | some job =>
    .found
      { jobId := job.id, siren := some job.siren, statusField := some job.status,
        createdAt := some job.createdAt, updatedAt := some job.updatedAt,
        errorField := job.error, resultField := job.result,
        artifacts := (artifactsFor s jobId).map fun a =>
          { kind := a.kind, path := a.path } }
  | none =>
    let arts : List ArtView :=
      (if disk.pdfExists then
        [{ kind := "pdf", path := artifactDir ++ "/report_" ++ jobId ++ ".pdf",
           url := some (baseUrl ++ "/artifact/" ++ jobId ++ "/pdf") }]
      else []) ++
      (if disk.graphExists then
        [{ kind := "graph", path := artifactDir ++ "/graph_" ++ jobId ++ ".html",
           url := some (baseUrl ++ "/artifact/" ++ jobId ++ "/graph") }]
      else [])
    if arts.isEmpty then .notFound
    else
      .found
        { jobId := jobId, siren := none, statusField := some .done,
          createdAt := none, updatedAt := none, errorField := none,
          resultField := none, artifacts := arts }

/-- The call outcome is not a raised exception. -/
def CallOutcome.noRaise {α : Type} : CallOutcome α → Bool
  | .raise _ => false
  | _ => true

/-- The call outcome carries no success body (no credential, or a
non-success status): the lookup degrades to `None`. -/
def CallOutcome.failed {α : Type} : CallOutcome α → Bool
  | .noAuth => true
  | .httpError _ => true
  | _ => false

/-- No identity-registry call of this run raises a transport-level
exception. -/
def sireneNoRaise (e : SireneEnv) : Bool :=
  e.sirenResp.noRaise && e.siretResp.noRaise && e.searchResp.noRaise

/-- If the call outcome raises, the raised message is non-empty. -/
def CallOutcome.noRaiseOrNonempty {α : Type} : CallOutcome α → Bool
  | .raise m => m ≠ ""
  | _ => true

/-- Every exception message the run environment can produce is
non-empty (Python's `str(exc)` of the exceptions arising here). -/
def envMessagesNonempty (env : RunEnv) : Bool :=
  env.sirene.sirenResp.noRaiseOrNonempty &&
  env.sirene.siretResp.noRaiseOrNonempty &&
  env.sirene.searchResp.noRaiseOrNonempty &&
  (match env.renderFailure with
   | some m => m ≠ ""
   | none => true)

/-! ## Store lookup lemmas -/

theorem find?_map_update (id : String) (f : Job → Job)
    (hf : ∀ j, (f j).id = j.id) :
    ∀ js : List Job,
      ((js.map fun j => if j.id == id then f j else j).find? fun j => j.id == id)
        = (js.find? fun j => j.id == id).map f
  | [] => rfl
  | j :: js => by
    cases h : (j.id == id) with
    | true =>
      have he : j.id = id := by simpa using h
      simp [List.find?_cons, hf, he]
    | false =>
      simp only [List.map_cons, h, if_false, Bool.false_eq_true, List.find?_cons, cond_false]
      exact find?_map_update id f hf js

theorem findJob_updateJob (s : Store) (id : String) (f : Job → Job)
    (hf : ∀ j, (f j).id = j.id) :
    findJob (updateJob s id f) id = (findJob s id).map f :=
  find?_map_update id f hf s.jobs

theorem find?_append_fresh (js : List Job) (job : Job) (id : String)
    (hfresh : ∀ j ∈ js, j.id ≠ id) (hid : job.id = id) :
    ((js ++ [job]).find? fun j => j.id == id) = some job := by
  induction js with
  | nil => simp [List.find?_cons, hid]
  | cons j js ih =>
    have h : (j.id == id) = false := by
      simpa using hfresh j (by simp)
    simp only [List.cons_append, List.find?_cons, h, cond_false]
    exact ih fun a ha => hfresh a (by simp [ha])

theorem filter_artifacts_fresh (arts : List Artifact) (id : String)
    (hfresh : ∀ a ∈ arts, a.jobId ≠ id) :
    (arts.filter fun a => a.jobId == id) = [] := by
  induction arts with
  | nil => rfl
  | cons a arts ih =>
    have h : (a.jobId == id) = false := by
      simpa using hfresh a (by simp)
    simp only [List.filter_cons, h, Bool.false_eq_true, if_false]
    exact ih fun b hb => hfresh b (by simp [hb])

/-! ## Scaffolding: the shape of a submission run -/

theorem submit_trace_eq (env : RunEnv) (siren : String) (depth : Int)
    (newId : String) (t0 : Nat) (s : Store)
    (hval : validSubmission siren depth = true) :
    (submitOwnership env siren depth newId t0 s).trace =
      { s with jobs := s.jobs ++ [newJob siren depth newId t0] } ::
        buildOwnershipTrace env newId
          { s with jobs := s.jobs ++ [newJob siren depth newId t0] } ∧
    (submitOwnership env siren depth newId t0 s).store =
      (buildOwnershipTrace env newId
          { s with jobs := s.jobs ++ [newJob siren depth newId t0] }).getLast?.getD
        { s with jobs := s.jobs ++ [newJob siren depth newId t0] } := by
  unfold submitOwnership
  rw [if_pos hval]
  exact ⟨rfl, rfl⟩

theorem buildTrace_ok (env : RunEnv) (id : String) (s : Store) (job : Job)
    (pa : ResultPayload × List Artifact)
    (hfound : findJob s id = some job) (hrun : runPipeline env job = .ok pa) :
    buildOwnershipTrace env id s =
      [updateJob s id (runningUpdate env),
       updateJob { updateJob s id (runningUpdate env) with artifacts := s.artifacts ++ pa.2 }
         id (doneUpdate env pa.1)] := by
  unfold buildOwnershipTrace
  rw [hfound]
  dsimp only
  rw [hrun]
  rfl

theorem buildTrace_err (env : RunEnv) (id : String) (s : Store) (job : Job) (msg : String)
    (hfound : findJob s id = some job) (hrun : runPipeline env job = .error msg) :
    buildOwnershipTrace env id s =
      [updateJob s id (runningUpdate env),
       updateJob (updateJob s id (runningUpdate env)) id (errorUpdate env msg)] := by
  unfold buildOwnershipTrace
  rw [hfound]
  dsimp only
  rw [hrun]

theorem findJob_new (s : Store) (siren : String) (depth : Int) (newId : String) (t0 : Nat)
    (hfresh : ∀ j ∈ s.jobs, j.id ≠ newId) :
    findJob { s with jobs := s.jobs ++ [newJob siren depth newId t0] } newId =
      some (newJob siren depth newId t0) :=
  find?_append_fresh s.jobs _ newId hfresh rfl

theorem findJob_setArtifacts (s : Store) (arts : List Artifact) (id : String) :
    findJob { s with artifacts := arts } id = findJob s id := rfl

theorem sireneGet_error {α : Type} (o : CallOutcome α) (m : String)
    (h : sireneGet o = .error m) : o = .raise m := by
  cases o with
  | raise m2 => injection h with h2; rw [h2]
  | noAuth => exact absurd h (by simp [sireneGet])
  | httpError c => exact absurd h (by simp [sireneGet])
  | ok b => exact absurd h (by simp [sireneGet])

theorem runPipeline_ok_shape (env : RunEnv) (job : Job)
    (pa : ResultPayload × List Artifact)
    (h : runPipeline env job = .ok pa) :
    pa.1.siren = job.siren ∧ pa.1.depth = job.depth ∧
    pa.1.edges = [{ src := "UNKNOWN", dst := job.siren, label := "N/A", confidence := 20 }] ∧
    pa.1.summary.confidenceScoreField = toString (confidenceScore false false false true) ∧
    pa.2 = [{ jobId := job.id, kind := "graph",
              path := env.artifactDir ++ "/graph_" ++ job.id ++ ".html", createdAt := env.tEnd },
            { jobId := job.id, kind := "pdf",
              path := env.artifactDir ++ "/report_" ++ job.id ++ ".pdf", createdAt := env.tEnd }] := by
  unfold runPipeline at h
  cases hf : fetchSireneIdentity env.sirene job.siren with
  | error m =>
    rw [hf] at h
    exact absurd h (by simp)
  | ok identity =>
    rw [hf] at h
    dsimp only at h
    cases hr : env.renderFailure with
    | some m =>
      rw [hr] at h
      exact absurd h (by simp)
    | none =>
      rw [hr] at h
      dsimp only at h
      injection h with h2
      rw [← h2]
      exact ⟨rfl, rfl, rfl, rfl, rfl⟩

theorem runPipeline_error_source (env : RunEnv) (job : Job) (msg : String)
    (h : runPipeline env job = .error msg) :
    fetchSireneIdentity env.sirene job.siren = .error msg ∨
      env.renderFailure = some msg := by
  unfold runPipeline at h
  cases hf : fetchSireneIdentity env.sirene job.siren with
  | error m =>
    rw [hf] at h
    dsimp only at h
    injection h with h2
    exact .inl (by rw [h2])
  | ok identity =>
    rw [hf] at h
    dsimp only at h
    cases hr : env.renderFailure with
    | some m =>
      rw [hr] at h
      dsimp only at h
      injection h with h2
      exact .inr (by rw [h2])
    | none =>
      rw [hr] at h
      exact absurd h (by simp)

theorem fetchSirene_error_source (e : SireneEnv) (siren msg : String)
    (h : fetchSireneIdentity e siren = .error msg) :
    e.sirenResp = .raise msg ∨ e.siretResp = .raise msg ∨ e.searchResp = .raise msg := by
  unfold fetchSireneIdentity at h
  split at h
  next m heq =>
    injection h with h2
    exact .inl (sireneGet_error _ _ (by rw [heq, h2]))
  next heq => exact absurd h (by simp)
  next heq => exact absurd h (by simp)
  next body heq =>
    dsimp only at h
    split at h
    next m heq2 =>
      injection h with h2
      subst h2
      split at heq2
      next =>
        split at heq2
        next m2 heq3 =>
          injection heq2 with h3
          exact .inr (.inl (sireneGet_error _ _ (by rw [heq3, h3])))
        next heq3 => exact absurd heq2 (by simp)
      next => exact absurd heq2 (by simp)
    next addr1 heq2 =>
      split at h
      next =>
        split at h
        next m2 heq3 =>
          injection h with h3
          exact .inr (.inr (sireneGet_error _ _ (by rw [heq3, h3])))
        next heq3 => exact absurd h (by simp)
      next => exact absurd h (by simp)

theorem sireneGet_ok_of_noRaise {α : Type} (o : CallOutcome α)
    (h : o.noRaise = true) : ∃ v, sireneGet o = .ok v := by
  cases o with
  | raise m => simp [CallOutcome.noRaise] at h
  | noAuth => exact ⟨none, rfl⟩
  | httpError c => exact ⟨none, rfl⟩
  | ok b => exact ⟨some b, rfl⟩

theorem fetchSirene_ok_of_noRaise (e : SireneEnv) (siren : String)
    (h : sireneNoRaise e = true) : ∃ r, fetchSireneIdentity e siren = .ok r := by
  simp only [sireneNoRaise, Bool.and_eq_true] at h
  obtain ⟨⟨h1, h2⟩, h3⟩ := h
  unfold fetchSireneIdentity
  cases o1 : e.sirenResp with
  | raise m => rw [o1] at h1; simp [CallOutcome.noRaise] at h1
  | noAuth => exact ⟨none, rfl⟩
  | httpError c => exact ⟨none, rfl⟩
  | ok b =>
    cases b with
    | none => exact ⟨none, rfl⟩
    | some body =>
      obtain ⟨v2, hv2⟩ := sireneGet_ok_of_noRaise e.siretResp h2
      obtain ⟨v3, hv3⟩ := sireneGet_ok_of_noRaise e.searchResp h3
      simp only [hv2, hv3]
      dsimp only [sireneGet]
      cases hn : body.nicSiege with
      | none => exact ⟨_, rfl⟩
      | some nic =>
        dsimp only
        by_cases hnic : nic = ""
        · simp only [hnic]
          exact ⟨_, rfl⟩
        · rw [if_neg hnic]
          dsimp only
          by_cases haddr : formatAddress (v2.getD {}) = ""
          · rw [if_pos haddr]
            exact ⟨_, rfl⟩
          · rw [if_neg haddr]
            exact ⟨_, rfl⟩

theorem fetchSirene_failed_none (e : SireneEnv) (siren : String)
    (h : e.sirenResp.failed = true) :
    fetchSireneIdentity e siren = .ok none := by
  unfold fetchSireneIdentity
  cases o1 : e.sirenResp with
  | noAuth => rfl
  | httpError c => rfl
  | raise m => rw [o1] at h; exact absurd h (by simp [CallOutcome.failed])
  | ok b => rw [o1] at h; exact absurd h (by simp [CallOutcome.failed])

theorem runPipeline_ok_of (env : RunEnv) (job : Job)
    (hs : sireneNoRaise env.sirene = true) (hr : env.renderFailure = none) :
    ∃ pa, runPipeline env job = .ok pa := by
  obtain ⟨r, hfe⟩ := fetchSirene_ok_of_noRaise env.sirene job.siren hs
  unfold runPipeline
  rw [hfe]
  dsimp only
  rw [hr]
  exact ⟨_, rfl⟩

theorem parseEventList_length (rs : List Json) :
    ∀ evs, parseEventList rs = some evs → evs.length = rs.length := by
  induction rs with
  | nil =>
    intro evs h
    simp only [parseEventList, Option.some.injEq] at h
    simp [← h]
  | cons r rs ih =>
    intro evs h
    simp only [parseEventList] at h
    cases he : parseEvent r with
    | none => rw [he] at h; exact absurd h (by simp)
    | some e =>
      rw [he] at h
      cases hl : parseEventList rs with
      | none => rw [hl] at h; exact absurd h (by simp)
      | some es =>
        rw [hl] at h
        simp only [Option.some.injEq] at h
        rw [← h]
        simp [ih es hl]

/-! ## Claim theorems -/

/-- Claim C4: the confidence scorer is a pure function into [0, 100] for
every vector of the four booleans; score(primary, recent, pct known,
not inferred) = 80, and the all-false/inferred vector clamps to 0
rather than going negative. -/
theorem confidence_score_bounds_and_values :
    (∀ has_pct is_recent is_primary inferred : Bool,
      0 ≤ confidenceScore has_pct is_recent is_primary inferred ∧
      confidenceScore has_pct is_recent is_primary inferred ≤ 100) ∧
    confidenceScore true true true false = 80 ∧
    confidenceScore false false false true = 0 := by
  decide

/-- Claim C8: with all seven components present and non-empty,
`_format_address` returns their space-joined concatenation in the
fixed field order; with no component present it returns the empty
string. -/
theorem format_address_fixed_order (c n r t v p l : String)
    (hc : c ≠ "") (hn : n ≠ "") (hr : r ≠ "") (ht : t ≠ "") (hv : v ≠ "")
    (hp : p ≠ "") (hl : l ≠ "") :
    formatAddress
        { complement := some c, numeroVoie := some n, indiceRepetition := some r,
          typeVoie := some t, libelleVoie := some v, codePostal := some p,
          libelleCommune := some l }
      = String.intercalate " " [c, n, r, t, v, p, l] ∧
    formatAddress {} = "" := by
  constructor
  · simp [formatAddress, addressParts, hc, hn, hr, ht, hv, hp, hl]
  · rfl

/-- Witness for C8 at a concrete address. -/
theorem format_address_fixed_order_witness :
    formatAddress
        { complement := some "BAT A", numeroVoie := some "12",
          indiceRepetition := some "bis", typeVoie := some "RUE",
          libelleVoie := some "DE LA PAIX", codePostal := some "75002",
          libelleCommune := some "PARIS" }
      = String.intercalate " " ["BAT A", "12", "bis", "RUE", "DE LA PAIX", "75002", "PARIS"] ∧
    formatAddress {} = "" :=
  format_address_fixed_order "BAT A" "12" "bis" "RUE" "DE LA PAIX" "75002" "PARIS"
    (by decide) (by decide) (by decide) (by decide) (by decide) (by decide) (by decide)

/-- Claim C6: the event fetcher sends the `rows = limit` cap with its
query; every transport error, non-success status, or malformed payload
yields the empty list (never an exception); on a well-formed response
whose record list respects the requested cap, at most `limit` events
are returned. -/
theorem bodacc_fetch_caps_and_degrades (siren : String) (limit : Nat) :
    List.lookup "rows" (bodaccParams siren limit) = some (toString limit) ∧
    (∀ msg, fetchBodaccEvents (.raise msg) = []) ∧
    (∀ code body, code ≠ 200 → fetchBodaccEvents (.status code body) = []) ∧
    fetchBodaccEvents (.status 200 none) = [] ∧
    (∀ data, parseEvents data = none → fetchBodaccEvents (.status 200 (some data)) = []) ∧
    (∀ data rs, data.dictGet "records" (Json.arr []) = some (.arr rs) → rs.length ≤ limit →
      (fetchBodaccEvents (.status 200 (some data))).length ≤ limit) := by
  refine ⟨rfl, fun msg => rfl, ?_, rfl, ?_, ?_⟩
  · intro code body h
    simp [fetchBodaccEvents, h]
  · intro data h
    simp [fetchBodaccEvents, h]
  · intro data rs hrec hlen
    have hpe : parseEvents data = parseEventList rs := by
      unfold parseEvents
      rw [hrec]
    show ((parseEvents data).getD []).length ≤ limit
    rw [hpe]
    cases hp : parseEventList rs with
    | none => simp
    | some evs =>
      simp only [Option.getD_some]
      rw [parseEventList_length rs evs hp]
      exact hlen

/-- Witness for C6 at concrete responses. -/
theorem bodacc_fetch_caps_and_degrades_witness :
    fetchBodaccEvents (.raise "connection timed out") = [] ∧
    fetchBodaccEvents (.status 503 (some (Json.obj []))) = [] ∧
    fetchBodaccEvents (.status 200 (some (Json.str "oops"))) = [] ∧
    (fetchBodaccEvents (.status 200 (some (Json.obj [("records", Json.arr [])])))).length ≤ 5 :=
  ⟨(bodacc_fetch_caps_and_degrades "552100554" 5).2.1 "connection timed out",
   (bodacc_fetch_caps_and_degrades "552100554" 5).2.2.1 503 (some (Json.obj [])) (by decide),
   (bodacc_fetch_caps_and_degrades "552100554" 5).2.2.2.2.1 (Json.str "oops") rfl,
   (bodacc_fetch_caps_and_degrades "552100554" 5).2.2.2.2.2
     (Json.obj [("records", Json.arr [])]) [] rfl (by decide)⟩

/-- Claim C7: the credential manager returns a configured static API
key directly (no expiry check, no exchange, cache untouched), taking
precedence over client-credential mode; with client credentials it
reuses the cached token exactly while `now < expires_at - 30` and
performs a credential exchange otherwise; with neither source it
returns `None` without any exchange. -/
theorem sirene_token_modes (env : TokenEnv) (cache : TokenCache) :
    (∀ k, env.apiKey = some k → k ≠ "" →
      sireneAccessToken env cache =
        { token := .ok (some k), cache := cache, exchanged := false }) ∧
    (truthy env.apiKey = false →
      (truthy env.clientId && truthy env.clientSecret) = false →
      sireneAccessToken env cache =
        { token := .ok none, cache := cache, exchanged := false }) ∧
    (truthy env.apiKey = false →
      (truthy env.clientId && truthy env.clientSecret) = true →
      ∀ t, cache.accessToken = some t → t ≠ "" → env.now < cache.expiresAt - 30 →
        sireneAccessToken env cache =
          { token := .ok (some t), cache := cache, exchanged := false }) ∧
    (truthy env.apiKey = false →
      (truthy env.clientId && truthy env.clientSecret) = true →
      (truthy cache.accessToken && decide (env.now < cache.expiresAt - 30)) = false →
      (sireneAccessToken env cache).exchanged = true) := by
  refine ⟨?_, ?_, ?_, ?_⟩
  · intro k hk hke
    have ht : truthy env.apiKey = true := by rw [hk]; simpa [truthy] using hke
    unfold sireneAccessToken
    rw [if_pos ht, hk]
  · intro ha hcc
    unfold sireneAccessToken
    rw [if_neg (by simp [ha]), if_pos (by simp [hcc])]
  · intro ha hcc t hct hte hnow
    have h3 : (truthy cache.accessToken && decide (env.now < cache.expiresAt - 30)) = true := by
      rw [hct]
      simp [truthy, hte, hnow]
    unfold sireneAccessToken
    rw [if_neg (by simp [ha]), if_neg (by simp [hcc]), if_pos h3, hct]
  · intro ha hcc h3
    unfold sireneAccessToken
    rw [if_neg (by simp [ha]), if_neg (by simp [hcc]), if_neg (by simp [h3])]
    cases env.exchange with
    | raise m => rfl
    | httpError c => rfl
    | ok tok exp =>
      dsimp only
      split <;> rfl

/-- Witness for C7: one concrete scenario per mode. -/
theorem sirene_token_modes_witness :
    sireneAccessToken
        { apiKey := some "KEY", clientId := some "id", clientSecret := some "sec",
          now := 0, exchange := .raise "boom" }
        { accessToken := some "tok", expiresAt := 1000 } =
      { token := .ok (some "KEY"),
        cache := { accessToken := some "tok", expiresAt := 1000 }, exchanged := false } ∧
    sireneAccessToken
        { apiKey := none, clientId := none, clientSecret := some "sec",
          now := 0, exchange := .raise "boom" }
        { accessToken := none, expiresAt := 0 } =
      { token := .ok none, cache := { accessToken := none, expiresAt := 0 },
        exchanged := false } ∧
    sireneAccessToken
        { apiKey := none, clientId := some "id", clientSecret := some "sec",
          now := 0, exchange := .raise "boom" }
        { accessToken := some "tok", expiresAt := 1000 } =
      { token := .ok (some "tok"),
        cache := { accessToken := some "tok", expiresAt := 1000 }, exchanged := false } ∧
    (sireneAccessToken
        { apiKey := none, clientId := some "id", clientSecret := some "sec",
          now := 0, exchange := .httpError 500 }
        { accessToken := some "tok", expiresAt := 20 }).exchanged = true :=
  ⟨(sirene_token_modes _ _).1 "KEY" rfl (by decide),
   (sirene_token_modes _ _).2.1 (by decide) (by decide),
   (sirene_token_modes _ _).2.2.1 (by decide) (by decide) "tok" rfl (by decide) (by decide),
   (sirene_token_modes _ _).2.2.2 (by decide) (by decide) (by decide)⟩

/-- A degraded-but-successful run environment used by concrete
witnesses: no registry credential, announcements request raising,
rendering succeeding. -/
def anyRunEnv : RunEnv :=
  { sirene := { sirenResp := .noAuth, siretResp := .noAuth, searchResp := .noAuth },
    bodacc := .raise "boom", renderFailure := none, artifactDir := "./data",
    tRun := 1, tEnd := 2 }

/-- Claim C1: along a submission lifecycle (the job is created `queued`
and the pipeline executes once on it), the observed status sequence of
the job over the committed store states is exactly
`queued, running, done` or `queued, running, error` — it is a prefix of
the monotone path and never leaves a terminal state — and `updated_at`
is refreshed at every transition (creation time, then the clock at the
`running` commit, then the clock at the terminal commit). -/
theorem job_status_monotonic (env : RunEnv) (siren : String) (depth : Int)
    (newId : String) (t0 : Nat) (s : Store)
    (hval : validSubmission siren depth = true)
    (hfresh : ∀ j ∈ s.jobs, j.id ≠ newId) :
    (statusTrace (submitOwnership env siren depth newId t0 s).trace newId =
        [.queued, .running, .done] ∨
      statusTrace (submitOwnership env siren depth newId t0 s).trace newId =
        [.queued, .running, .error]) ∧
    updatedAtTrace (submitOwnership env siren depth newId t0 s).trace newId =
      [t0, env.tRun, env.tEnd] := by
  obtain ⟨htr, -⟩ := submit_trace_eq env siren depth newId t0 s hval
  rw [htr]
  have hj0 : findJob { s with jobs := s.jobs ++ [newJob siren depth newId t0] } newId =
      some (newJob siren depth newId t0) := findJob_new s siren depth newId t0 hfresh
  set s0 : Store := { s with jobs := s.jobs ++ [newJob siren depth newId t0] } with hs0def
  have hj1 : findJob (updateJob s0 newId (runningUpdate env)) newId =
      some (runningUpdate env (newJob siren depth newId t0)) := by
    rw [findJob_updateJob s0 newId (runningUpdate env) fun j => rfl, hj0]
    rfl
  cases hrun : runPipeline env (newJob siren depth newId t0) with
  | ok pa =>
    rw [buildTrace_ok env newId s0 _ pa hj0 hrun]
    have hj2 : findJob
        (updateJob { updateJob s0 newId (runningUpdate env) with
            artifacts := s0.artifacts ++ pa.2 } newId (doneUpdate env pa.1)) newId =
        some (doneUpdate env pa.1 (runningUpdate env (newJob siren depth newId t0))) := by
      rw [findJob_updateJob _ newId (doneUpdate env pa.1) fun j => rfl,
          findJob_setArtifacts, hj1]
      rfl
    constructor
    · left
      simp [statusTrace, hj0, hj1, hj2, newJob, runningUpdate, doneUpdate]
    · simp [updatedAtTrace, hj0, hj1, hj2, newJob, runningUpdate, doneUpdate]
  | error msg =>
    rw [buildTrace_err env newId s0 _ msg hj0 hrun]
    have hj2 : findJob
        (updateJob (updateJob s0 newId (runningUpdate env)) newId (errorUpdate env msg)) newId =
        some (errorUpdate env msg (runningUpdate env (newJob siren depth newId t0))) := by
      rw [findJob_updateJob _ newId (errorUpdate env msg) fun j => rfl, hj1]
      rfl
    constructor
    · right
      simp [statusTrace, hj0, hj1, hj2, newJob, runningUpdate, errorUpdate]
    · simp [updatedAtTrace, hj0, hj1, hj2, newJob, runningUpdate, errorUpdate]

/-- Witness for C1 at a concrete submission. -/
theorem job_status_monotonic_witness :
    (statusTrace (submitOwnership anyRunEnv "552100554" 3 "job-1" 0
        { jobs := [], artifacts := [] }).trace "job-1" =
        [.queued, .running, .done] ∨
      statusTrace (submitOwnership anyRunEnv "552100554" 3 "job-1" 0
        { jobs := [], artifacts := [] }).trace "job-1" =
        [.queued, .running, .error]) ∧
    updatedAtTrace (submitOwnership anyRunEnv "552100554" 3 "job-1" 0
        { jobs := [], artifacts := [] }).trace "job-1" = [0, 1, 2] :=
  job_status_monotonic anyRunEnv "552100554" 3 "job-1" 0 { jobs := [], artifacts := [] }
    (by decide) (by simp)

theorem runPipeline_error_nonempty (env : RunEnv) (job : Job) (msg : String)
    (h : runPipeline env job = .error msg)
    (hne : envMessagesNonempty env = true) : msg ≠ "" := by
  simp only [envMessagesNonempty, Bool.and_eq_true] at hne
  obtain ⟨⟨⟨h1, h2⟩, h3⟩, h4⟩ := hne
  rcases runPipeline_error_source env job msg h with hf | hr
  · rcases fetchSirene_error_source env.sirene job.siren msg hf with he | he | he
    · rw [he] at h1
      simpa [CallOutcome.noRaiseOrNonempty] using h1
    · rw [he] at h2
      simpa [CallOutcome.noRaiseOrNonempty] using h2
    · rw [he] at h3
      simpa [CallOutcome.noRaiseOrNonempty] using h3
  · rw [hr] at h4
    simpa using h4

theorem getLastD_pair {α : Type} (a b d : α) : ([a, b] : List α).getLast?.getD d = b := by
  simp

/-- Claim C3: a job that reaches `done` has exactly two artifact rows,
one `graph` and one `pdf`, both referencing the job id; a job in
`error` carries no result payload and a present error message (and a
non-empty one whenever the environment's exception renderings are
non-empty), with no artifacts; and no artifacts exist at any committed
state in which the job is `running`. -/
theorem done_two_artifacts_error_none (env : RunEnv) (siren : String) (depth : Int)
    (newId : String) (t0 : Nat) (s : Store)
    (hval : validSubmission siren depth = true)
    (hfreshJ : ∀ j ∈ s.jobs, j.id ≠ newId)
    (hfreshA : ∀ a ∈ s.artifacts, a.jobId ≠ newId) :
    (∀ j, findJob (submitOwnership env siren depth newId t0 s).store newId = some j →
      (j.status = .done →
        (artifactsFor (submitOwnership env siren depth newId t0 s).store newId).map
            (fun a => (a.kind, a.jobId)) = [("graph", newId), ("pdf", newId)]) ∧
      (j.status = .error →
        j.result = none ∧ j.error ≠ none ∧
        artifactsFor (submitOwnership env siren depth newId t0 s).store newId = [] ∧
        (envMessagesNonempty env = true → j.error ≠ some ""))) ∧
    (∀ st ∈ (submitOwnership env siren depth newId t0 s).trace,
      ∀ j, findJob st newId = some j → j.status = .running → artifactsFor st newId = []) := by
  obtain ⟨htr, hst⟩ := submit_trace_eq env siren depth newId t0 s hval
  have hj0 : findJob { s with jobs := s.jobs ++ [newJob siren depth newId t0] } newId =
      some (newJob siren depth newId t0) := findJob_new s siren depth newId t0 hfreshJ
  set s0 : Store := { s with jobs := s.jobs ++ [newJob siren depth newId t0] } with hs0def
  have hj1 : findJob (updateJob s0 newId (runningUpdate env)) newId =
      some (runningUpdate env (newJob siren depth newId t0)) := by
    rw [findJob_updateJob s0 newId (runningUpdate env) fun j => rfl, hj0]
    rfl
  have hart0 : s0.artifacts.filter (fun a => a.jobId == newId) = [] :=
    filter_artifacts_fresh s.artifacts newId hfreshA
  have hart1 : artifactsFor (updateJob s0 newId (runningUpdate env)) newId = [] := hart0
  cases hrun : runPipeline env (newJob siren depth newId t0) with
  | ok pa =>
    obtain ⟨-, -, -, -, harts⟩ :=
      runPipeline_ok_shape env (newJob siren depth newId t0) pa hrun
    have hbt := buildTrace_ok env newId s0 _ pa hj0 hrun
    have hstore : (submitOwnership env siren depth newId t0 s).store =
        updateJob { updateJob s0 newId (runningUpdate env) with
            artifacts := s0.artifacts ++ pa.2 } newId (doneUpdate env pa.1) := by
      rw [hst, hbt]
      exact getLastD_pair _ _ _
    have hj2 : findJob
        (updateJob { updateJob s0 newId (runningUpdate env) with
            artifacts := s0.artifacts ++ pa.2 } newId (doneUpdate env pa.1)) newId =
        some (doneUpdate env pa.1 (runningUpdate env (newJob siren depth newId t0))) := by
      rw [findJob_updateJob _ newId (doneUpdate env pa.1) fun j => rfl,
          findJob_setArtifacts, hj1]
      rfl
    have hart2 : artifactsFor
        (updateJob { updateJob s0 newId (runningUpdate env) with
            artifacts := s0.artifacts ++ pa.2 } newId (doneUpdate env pa.1)) newId =
        pa.2.filter (fun a => a.jobId == newId) := by
      show (s0.artifacts ++ pa.2).filter (fun a => a.jobId == newId) = _
      rw [List.filter_append, hart0, List.nil_append]
    constructor
    · intro j hj
      rw [hstore, hj2] at hj
      injection hj with hjeq
      subst hjeq
      constructor
      · intro _
        rw [hstore, hart2, harts]
        simp [newJob]
      · intro hcontra
        simp [doneUpdate] at hcontra
    · intro st hstm j hj hrunning
      rw [htr, hbt] at hstm
      simp only [List.mem_cons, List.mem_singleton, List.not_mem_nil, or_false] at hstm
      rcases hstm with h | h | h
      · subst h
        rw [hj0] at hj
        simp only [Option.some.injEq] at hj
        rw [← hj] at hrunning
        simp [newJob] at hrunning
      · subst h
        exact hart1
      · subst h
        rw [hj2] at hj
        simp only [Option.some.injEq] at hj
        rw [← hj] at hrunning
        simp [doneUpdate] at hrunning
  | error msg =>
    have hbt := buildTrace_err env newId s0 _ msg hj0 hrun
    have hstore : (submitOwnership env siren depth newId t0 s).store =
        updateJob (updateJob s0 newId (runningUpdate env)) newId (errorUpdate env msg) := by
      rw [hst, hbt]
      exact getLastD_pair _ _ _
    have hj2 : findJob
        (updateJob (updateJob s0 newId (runningUpdate env)) newId (errorUpdate env msg)) newId =
        some (errorUpdate env msg (runningUpdate env (newJob siren depth newId t0))) := by
      rw [findJob_updateJob _ newId (errorUpdate env msg) fun j => rfl, hj1]
      rfl
    have hart2 : artifactsFor
        (updateJob (updateJob s0 newId (runningUpdate env)) newId (errorUpdate env msg)) newId
        = [] := hart0
    constructor
    · intro j hj
      rw [hstore, hj2] at hj
      injection hj with hjeq
      subst hjeq
      constructor
      · intro hcontra
        simp [errorUpdate] at hcontra
      · intro _
        refine ⟨rfl, by simp [errorUpdate], by rw [hstore]; exact hart2, ?_⟩
        intro hne heq
        have hmsg : msg ≠ "" := runPipeline_error_nonempty env _ msg hrun hne
        apply hmsg
        have : (errorUpdate env msg (runningUpdate env (newJob siren depth newId t0))).error
            = some msg := rfl
        rw [this] at heq
        injection heq
    · intro st hstm j hj hrunning
      rw [htr, hbt] at hstm
      simp only [List.mem_cons, List.mem_singleton, List.not_mem_nil, or_false] at hstm
      rcases hstm with h | h | h
      · subst h
        rw [hj0] at hj
        simp only [Option.some.injEq] at hj
        rw [← hj] at hrunning
        simp [newJob] at hrunning
      · subst h
        exact hart1
      · subst h
        rw [hj2] at hj
        simp only [Option.some.injEq] at hj
        rw [← hj] at hrunning
        simp [errorUpdate] at hrunning

/-- A run environment whose render step raises, driving a job to
`error`. -/
def failRenderEnv : RunEnv :=
  { sirene := { sirenResp := .noAuth, siretResp := .noAuth, searchResp := .noAuth },
    bodacc := .raise "boom", renderFailure := some "render exploded",
    artifactDir := "./data", tRun := 1, tEnd := 2 }

/-- Witness for C3 at concrete submissions: a successful run yields
exactly the graph and pdf artifact rows, a failed run yields none. -/
theorem done_two_artifacts_error_none_witness :
    (artifactsFor (submitOwnership anyRunEnv "552100554" 3 "job-1" 0
        { jobs := [], artifacts := [] }).store "job-1").map
        (fun a => (a.kind, a.jobId)) = [("graph", "job-1"), ("pdf", "job-1")] ∧
    artifactsFor (submitOwnership failRenderEnv "552100554" 3 "job-1" 0
        { jobs := [], artifacts := [] }).store "job-1" = [] :=
  ⟨((done_two_artifacts_error_none anyRunEnv "552100554" 3 "job-1" 0
      { jobs := [], artifacts := [] } (by decide) (by simp) (by simp)).1 _ rfl).1 rfl,
   (((done_two_artifacts_error_none failRenderEnv "552100554" 3 "job-1" 0
      { jobs := [], artifacts := [] } (by decide) (by simp) (by simp)).1 _ rfl).2 rfl).2.2.1⟩

/-- Claim C10: on every successful pipeline run, the graph's single
edge is the unknown-holder edge carrying the constant confidence 20 —
independent of the scorer, which is invoked on the fixed vector
(has_pct := false, is_recent := false, is_primary := false,
inferred := true), evaluates to 0, and flows only into the summary's
confidence field. -/
theorem unknown_edge_constant_confidence (env : RunEnv) (siren : String) (depth : Int)
    (newId : String) (t0 : Nat) (s : Store)
    (hval : validSubmission siren depth = true)
    (hfresh : ∀ j ∈ s.jobs, j.id ≠ newId)
    (hs : sireneNoRaise env.sirene = true)
    (hr : env.renderFailure = none) :
    ∃ p : ResultPayload,
      ((findJob (submitOwnership env siren depth newId t0 s).store newId).bind Job.result)
        = some p ∧
      p.edges = [{ src := "UNKNOWN", dst := siren, label := "N/A", confidence := 20 }] ∧
      p.summary.confidenceScoreField = toString (confidenceScore false false false true) ∧
      confidenceScore false false false true = 0 := by
  obtain ⟨htr, hst⟩ := submit_trace_eq env siren depth newId t0 s hval
  have hj0 : findJob { s with jobs := s.jobs ++ [newJob siren depth newId t0] } newId =
      some (newJob siren depth newId t0) := findJob_new s siren depth newId t0 hfresh
  set s0 : Store := { s with jobs := s.jobs ++ [newJob siren depth newId t0] } with hs0def
  have hj1 : findJob (updateJob s0 newId (runningUpdate env)) newId =
      some (runningUpdate env (newJob siren depth newId t0)) := by
    rw [findJob_updateJob s0 newId (runningUpdate env) fun j => rfl, hj0]
    rfl
  obtain ⟨pa, hrun⟩ := runPipeline_ok_of env (newJob siren depth newId t0) hs hr
  obtain ⟨-, -, hedges, hconf, -⟩ :=
    runPipeline_ok_shape env (newJob siren depth newId t0) pa hrun
  have hbt := buildTrace_ok env newId s0 _ pa hj0 hrun
  have hstore : (submitOwnership env siren depth newId t0 s).store =
      updateJob { updateJob s0 newId (runningUpdate env) with
          artifacts := s0.artifacts ++ pa.2 } newId (doneUpdate env pa.1) := by
    rw [hst, hbt]
    exact getLastD_pair _ _ _
  have hj2 : findJob
      (updateJob { updateJob s0 newId (runningUpdate env) with
          artifacts := s0.artifacts ++ pa.2 } newId (doneUpdate env pa.1)) newId =
      some (doneUpdate env pa.1 (runningUpdate env (newJob siren depth newId t0))) := by
    rw [findJob_updateJob _ newId (doneUpdate env pa.1) fun j => rfl,
        findJob_setArtifacts, hj1]
    rfl
  refine ⟨pa.1, ?_, ?_, hconf, by decide⟩
  · rw [hstore, hj2]
    rfl
  · rw [hedges]
    rfl

/-- Witness for C10 at a concrete submission. -/
theorem unknown_edge_constant_confidence_witness :
    ∃ p : ResultPayload,
      ((findJob (submitOwnership anyRunEnv "552100554" 3 "job-1" 0
          { jobs := [], artifacts := [] }).store "job-1").bind Job.result) = some p ∧
      p.edges = [{ src := "UNKNOWN", dst := "552100554", label := "N/A", confidence := 20 }] ∧
      p.summary.confidenceScoreField = toString (confidenceScore false false false true) ∧
      confidenceScore false false false true = 0 :=
  unknown_edge_constant_confidence anyRunEnv "552100554" 3 "job-1" 0
    { jobs := [], artifacts := [] } (by decide) (by simp) (by decide) rfl

/-- A registry environment whose `/siren` lookup raises a transport
error (`requests.get` timing out), which `_sirene_get` performs no
exception handling for. -/
def sireneRaiseEnv : SireneEnv :=
  { sirenResp := .raise "connection timed out", siretResp := .noAuth, searchResp := .noAuth }

/-- The run environment of the C2 counterexample. -/
def runEnvTimeout : RunEnv :=
  { sirene := sireneRaiseEnv, bodacc := .raise "boom", renderFailure := none,
    artifactDir := "./data", tRun := 1, tEnd := 2 }

/-- Counterexample to C2: a transport error in the `/siren` lookup is
not caught by `_sirene_get` or `_fetch_sirene_identity`; the exception
propagates into `build_ownership`, which marks the job `error` with the
exception text — the upstream failure is surfaced as a job failure
instead of degrading to a `done` job with unknown fields. -/
theorem sirene_transport_error_fails_job :
    fetchSireneIdentity sireneRaiseEnv "552100554" = .error "connection timed out" ∧
    (findJob (submitOwnership runEnvTimeout "552100554" 3 "job-1" 0
        { jobs := [], artifacts := [] }).store "job-1").map Job.status = some .error ∧
    (findJob (submitOwnership runEnvTimeout "552100554" 3 "job-1" 0
        { jobs := [], artifacts := [] }).store "job-1").map Job.error =
      some (some "connection timed out") := by
  refine ⟨rfl, rfl, rfl⟩

/-- C2 amended: provided no registry call raises a transport-level
exception, `_fetch_sirene_identity` returns a record without raising;
when the entity lookup fails through a missing credential or a
non-success HTTP status it returns the empty (all-unknown) record; and
such degraded lookups still let the job reach `done` (rendering
succeeding). -/
theorem sirene_degrades_on_http_failure (env : RunEnv) (siren : String) (depth : Int)
    (newId : String) (t0 : Nat) (s : Store)
    (hval : validSubmission siren depth = true)
    (hfresh : ∀ j ∈ s.jobs, j.id ≠ newId)
    (hs : sireneNoRaise env.sirene = true)
    (hr : env.renderFailure = none) :
    (∃ r, fetchSireneIdentity env.sirene siren = .ok r) ∧
    (env.sirene.sirenResp.failed = true →
      fetchSireneIdentity env.sirene siren = .ok none) ∧
    (findJob (submitOwnership env siren depth newId t0 s).store newId).map Job.status =
      some .done := by
  refine ⟨fetchSirene_ok_of_noRaise env.sirene siren hs,
          fun hf => fetchSirene_failed_none env.sirene siren hf, ?_⟩
  obtain ⟨htr, hst⟩ := submit_trace_eq env siren depth newId t0 s hval
  have hj0 : findJob { s with jobs := s.jobs ++ [newJob siren depth newId t0] } newId =
      some (newJob siren depth newId t0) := findJob_new s siren depth newId t0 hfresh
  set s0 : Store := { s with jobs := s.jobs ++ [newJob siren depth newId t0] } with hs0def
  have hj1 : findJob (updateJob s0 newId (runningUpdate env)) newId =
      some (runningUpdate env (newJob siren depth newId t0)) := by
    rw [findJob_updateJob s0 newId (runningUpdate env) fun j => rfl, hj0]
    rfl
  obtain ⟨pa, hrun⟩ := runPipeline_ok_of env (newJob siren depth newId t0) hs hr
  have hbt := buildTrace_ok env newId s0 _ pa hj0 hrun
  have hstore : (submitOwnership env siren depth newId t0 s).store =
      updateJob { updateJob s0 newId (runningUpdate env) with
          artifacts := s0.artifacts ++ pa.2 } newId (doneUpdate env pa.1) := by
    rw [hst, hbt]
    exact getLastD_pair _ _ _
  have hj2 : findJob
      (updateJob { updateJob s0 newId (runningUpdate env) with
          artifacts := s0.artifacts ++ pa.2 } newId (doneUpdate env pa.1)) newId =
      some (doneUpdate env pa.1 (runningUpdate env (newJob siren depth newId t0))) := by
    rw [findJob_updateJob _ newId (doneUpdate env pa.1) fun j => rfl,
        findJob_setArtifacts, hj1]
    rfl
  rw [hstore, hj2]
  rfl

/-- Witness for the amended C2 at a concrete credential-less run. -/
theorem sirene_degrades_on_http_failure_witness :
    (∃ r, fetchSireneIdentity anyRunEnv.sirene "552100554" = .ok r) ∧
    (anyRunEnv.sirene.sirenResp.failed = true →
      fetchSireneIdentity anyRunEnv.sirene "552100554" = .ok none) ∧
    (findJob (submitOwnership anyRunEnv "552100554" 3 "job-1" 0
        { jobs := [], artifacts := [] }).store "job-1").map Job.status = some .done :=
  sirene_degrades_on_http_failure anyRunEnv "552100554" 3 "job-1" 0
    { jobs := [], artifacts := [] } (by decide) (by simp) (by decide) rfl

/-- Counterexample to C5: with no job row in the store but a PDF file
on disk for the requested id, `get_ownership` does not return 404 — it
fabricates a `done` job view over the disk artifact. -/
theorem get_missing_job_disk_fallback :
    getOwnership { pdfExists := true, graphExists := false } "http://h" "/tmp/artifacts"
        "nojob" { jobs := [], artifacts := [] } =
      .found
        { jobId := "nojob", siren := none, statusField := some .done,
          createdAt := none, updatedAt := none, errorField := none, resultField := none,
          artifacts := [{ kind := "pdf", path := "/tmp/artifacts/report_nojob.pdf",
                          url := some "http://h/artifact/nojob/pdf" }] } ∧
    getOwnership { pdfExists := true, graphExists := false } "http://h" "/tmp/artifacts"
        "nojob" { jobs := [], artifacts := [] } ≠ .notFound := by
  have hv : getOwnership { pdfExists := true, graphExists := false } "http://h" "/tmp/artifacts"
      "nojob" { jobs := [], artifacts := [] } =
      .found
        { jobId := "nojob", siren := none, statusField := some .done,
          createdAt := none, updatedAt := none, errorField := none, resultField := none,
          artifacts := [{ kind := "pdf", path := "/tmp/artifacts/report_nojob.pdf",
                          url := some "http://h/artifact/nojob/pdf" }] } := rfl
  refine ⟨hv, ?_⟩
  intro hc
  rw [hv] at hc
  cases hc

/-- C5 amended: for a job id with no job record, `get_ownership`
returns the 404 signal exactly when no artifact file for that id exists
on disk; when one does, it synthesizes a `done` view over the disk
artifacts instead. -/
theorem get_unknown_job_behaviour (disk : DiskEnv) (baseUrl dir jobId : String) (s : Store)
    (hnone : findJob s jobId = none) :
    (disk.pdfExists = false → disk.graphExists = false →
      getOwnership disk baseUrl dir jobId s = .notFound) ∧
    ((disk.pdfExists || disk.graphExists) = true →
      ∃ v, getOwnership disk baseUrl dir jobId s = .found v ∧
        v.statusField = some .done ∧ v.siren = none ∧ v.resultField = none) := by
  unfold getOwnership
  rw [hnone]
  dsimp only
  constructor
  · intro hp hg
    rw [hp, hg]
    rfl
  · intro hor
    cases hp : disk.pdfExists with
    | true => exact ⟨_, rfl, rfl, rfl, rfl⟩
    | false =>
      cases hg : disk.graphExists with
      | true => exact ⟨_, rfl, rfl, rfl, rfl⟩
      | false => simp [hp, hg] at hor

/-- Witness for the amended C5 at concrete disk states. -/
theorem get_unknown_job_behaviour_witness :
    getOwnership { pdfExists := false, graphExists := false } "http://h" "/tmp" "j"
        { jobs := [], artifacts := [] } = .notFound ∧
    ∃ v, getOwnership { pdfExists := true, graphExists := true } "http://h" "/tmp" "j"
        { jobs := [], artifacts := [] } = .found v ∧
      v.statusField = some .done ∧ v.siren = none ∧ v.resultField = none :=
  ⟨(get_unknown_job_behaviour { pdfExists := false, graphExists := false }
      "http://h" "/tmp" "j" { jobs := [], artifacts := [] } rfl).1 rfl rfl,
   (get_unknown_job_behaviour { pdfExists := true, graphExists := true }
      "http://h" "/tmp" "j" { jobs := [], artifacts := [] } rfl).2 rfl⟩

/-- Claim C9: a submission with depth 0 or 7, or with an identifier
whose length differs from 9 characters, is rejected by request
validation before any job is created; the store is unchanged. -/
theorem invalid_submission_rejected (env : RunEnv) (siren : String) (depth : Int)
    (newId : String) (t0 : Nat) (s : Store)
    (h : depth = 0 ∨ depth = 7 ∨ siren.length ≠ 9) :
    (submitOwnership env siren depth newId t0 s).result = .rejected ∧
    (submitOwnership env siren depth newId t0 s).store = s ∧
    (findJob s newId = none → findJob (submitOwnership env siren depth newId t0 s).store newId = none) := by
  have hv : validSubmission siren depth = false := by
    rcases h with h | h | h
    · simp [validSubmission, h]
    · simp [validSubmission, h]
    · have hb : (siren.length == 9) = false := by
        cases hbe : siren.length == 9 with
        | false => rfl
        | true => exact absurd (by simpa using hbe) h
      simp [validSubmission, hb]
  unfold submitOwnership
  rw [if_neg (by simp [hv])]
  exact ⟨rfl, rfl, fun hn => hn⟩

/-- Witness for C9 at concrete invalid submissions. -/
theorem invalid_submission_rejected_witness :
    (submitOwnership anyRunEnv "552100554" 0 "j" 0 { jobs := [], artifacts := [] }).result =
      .rejected ∧
    (submitOwnership anyRunEnv "552100554" 7 "j" 0 { jobs := [], artifacts := [] }).result =
      .rejected ∧
    (submitOwnership anyRunEnv "12345678" 3 "j" 0 { jobs := [], artifacts := [] }).store =
      { jobs := [], artifacts := [] } :=
  ⟨(invalid_submission_rejected anyRunEnv "552100554" 0 "j" 0
      { jobs := [], artifacts := [] } (.inl rfl)).1,
   (invalid_submission_rejected anyRunEnv "552100554" 7 "j" 0
      { jobs := [], artifacts := [] } (.inr (.inl rfl))).1,
   (invalid_submission_rejected anyRunEnv "12345678" 3 "j" 0
      { jobs := [], artifacts := [] } (.inr (.inr (by decide)))).2.1⟩

end Ownership
